import Mathlib

/-!
Shallow embedding of the Content Versioning & Progress Tracking Engine of the
locus-guide backend (`app/routes/service.py`, `app/routes/models.py`,
`app/routes/router.py`).

The relational store is modelled as lists of rows; SQLAlchemy `query(...).first()`
becomes `List.find?`, row mutation becomes a keyed `List.map` update, and
`db.commit()` is implicit in the returned state.  Primary keys are `Nat`
(the database generates UUIDs; the model generates them from a `next_id`
counter).  Wall-clock timestamps (`datetime.now(timezone.utc)`) are passed in
explicitly as a `now : Nat` argument.  Columns never read by the service logic
under study (localized text, geometry, prices, created/updated bookkeeping
timestamps) are omitted from the row types.

Naming note: the repository is mid-rename.  `service.py` calls the tour entity
`Tour` and the version entity `Route` (with `published_route_id` /
`locked_route_id`); `models.py` calls the same two entities `Route` and
`RouteVersion`.  We follow `service.py`, whose logic is being verified.
-/

namespace LocusGuide

/-- Enum `TourStatus` from `app/routes/models.py` (`RouteStatus` there). -/
inductive TourStatus
  | draft
  | published
  | coming_soon
  | archived
deriving DecidableEq, Repr

/-- Version status, `RouteVersionStatus` in `app/routes/models.py`. -/
inductive RouteStatus
  | draft
  | review
  | published
  | superseded
deriving DecidableEq, Repr

/-- Enum `AudioListenStatus` from `app/routes/models.py`. -/
inductive AudioListenStatus
  | none
  | started
  | completed
deriving DecidableEq, Repr

/-- Enum `CompletionType` from `app/routes/models.py`. -/
inductive CompletionType
  | manual
  | automatic
deriving DecidableEq, Repr

/-- A tour row (`routes` table). -/
structure Tour where
  id : Nat
  city_id : Nat
  slug : String
  status : TourStatus
  published_route_id : Option Nat
  created_by_user_id : Nat
deriving DecidableEq, Repr

/-- A version row (`route_versions` table). -/
structure Route where
  id : Nat
  tour_id : Nat
  version_no : Nat
  status : RouteStatus
  published_at : Option Nat
  created_by_user_id : Nat
deriving DecidableEq, Repr

/-- A checkpoint row (`checkpoints` table). -/
structure Checkpoint where
  id : Nat
  route_id : Nat
  seq_no : Nat
  is_visible : Bool
deriving DecidableEq, Repr

/-- A per-(user, checkpoint) progress row (`visited_points` table). -/
structure VisitedPoint where
  user_id : Nat
  checkpoint_id : Nat
  visited : Bool
  visited_at : Option Nat
  audio_status : AudioListenStatus
  audio_started_at : Option Nat
  audio_completed_at : Option Nat
deriving DecidableEq, Repr

/-- A user session row (`user_active_routes` table, `UserActiveTour` in `service.py`). -/
structure UserActiveTour where
  id : Nat
  user_id : Nat
  tour_id : Nat
  locked_route_id : Nat
  started_at : Nat
  completed_at : Option Nat
  completion_type : Option CompletionType
deriving DecidableEq, Repr

/-- The database state seen by `RouteService`. -/
structure St where
  tours : List Tour
  routes : List Route
  checkpoints : List Checkpoint
  visited_points : List VisitedPoint
  sessions : List UserActiveTour
  next_id : Nat
deriving DecidableEq, Repr

def St.empty : St := ⟨[], [], [], [], [], 0⟩

/-- Lookup `db.query(Tour).filter(Tour.id == tour_id).first()`. -/
def findTour (s : St) (tid : Nat) : Option Tour :=
  s.tours.find? (fun t => t.id == tid)

/-- Lookup `db.query(Route).filter(Route.id == route_id).first()`. -/
def findRoute (s : St) (rid : Nat) : Option Route :=
  s.routes.find? (fun r => r.id == rid)

/-- Lookup `db.query(Checkpoint).filter(Checkpoint.id == checkpoint_id).first()`. -/
def findCheckpoint (s : St) (cid : Nat) : Option Checkpoint :=
  s.checkpoints.find? (fun c => c.id == cid)

/-- Lookup `db.query(VisitedPoint).filter(user_id ==, checkpoint_id ==).first()`. -/
def findVP (s : St) (uid cid : Nat) : Option VisitedPoint :=
  s.visited_points.find? (fun v => v.user_id == uid && v.checkpoint_id == cid)

/-- Lookup `db.query(UserActiveTour).filter(user_id ==, tour_id ==).first()`. -/
def findSession (s : St) (uid tid : Nat) : Option UserActiveTour :=
  s.sessions.find? (fun x => x.user_id == uid && x.tour_id == tid)

/-- Lookup `db.query(UserActiveTour).filter(user_id ==, tour_id ==, completed_at == None).first()`. -/
def findActiveSession (s : St) (uid tid : Nat) : Option UserActiveTour :=
  s.sessions.find? (fun x => x.user_id == uid && x.tour_id == tid && x.completed_at.isNone)

/-- Join `Tour join Route on Tour.id == Route.tour_id filter Route.id == route_id`. -/
def findTourOfRoute (s : St) (rid : Nat) : Option Tour :=
  match findRoute s rid with
  | Option.none => Option.none
  | Option.some r => findTour s r.tour_id

/-- Mutation of the tour row(s) with the given primary key. -/
def updateTour (s : St) (tid : Nat) (f : Tour → Tour) : St :=
  { s with tours := s.tours.map (fun t => if t.id = tid then f t else t) }

/-- Mutation of the version row(s) with the given primary key. -/
def updateRoute (s : St) (rid : Nat) (f : Route → Route) : St :=
  { s with routes := s.routes.map (fun r => if r.id = rid then f r else r) }

/-- Mutation of the progress row(s) with the given composite key. -/
def updateVP (s : St) (uid cid : Nat) (f : VisitedPoint → VisitedPoint) : St :=
  let vps := s.visited_points.map
    (fun v => if v.user_id = uid ∧ v.checkpoint_id = cid then f v else v)
  { s with visited_points := vps }

/-- Mutation of the session row(s) with the given primary key. -/
def updateSession (s : St) (sid : Nat) (f : UserActiveTour → UserActiveTour) : St :=
  { s with sessions := s.sessions.map (fun x => if x.id = sid then f x else x) }

/-- Python's `round` (banker's rounding, round-half-to-even) on an exact rational. -/
def roundHalfEven (q : ℚ) : ℤ :=
  if q - ⌊q⌋ = 1 / 2 then (if ⌊q⌋ % 2 = 0 then ⌊q⌋ else ⌊q⌋ + 1) else round q

/-- Python `round(x, 1)`: round to one decimal place. -/
def pyRound1 (q : ℚ) : ℚ := (roundHalfEven (q * 10) : ℚ) / 10

/-- The aggregate returned by `RouteService._calculate_user_progress`. -/
structure Progress where
  checkpoints_visited : Nat
  checkpoints_total : Nat
  audio_completed : Nat
  progress_percent : ℚ
deriving DecidableEq, Repr

/-- The join `VisitedPoint.checkpoint_id == Checkpoint.id` restricted to
`Checkpoint.route_id == route_id` (checkpoint ids are primary keys). -/
def checkpointOnRoute (s : St) (cid rid : Nat) : Bool :=
  s.checkpoints.any (fun c => c.id == cid && c.route_id == rid)

/-- Query `count(Checkpoint.id) where route_id == route_id and is_visible` — note the
visibility filter (service.py lines 31-34). -/
def totalCount (s : St) (route_id : Nat) : Nat :=
  (s.checkpoints.filter (fun c => c.route_id == route_id && c.is_visible)).length

/-- Query `count(VisitedPoint)` joined to the route's checkpoints with `visited` —
no visibility filter (service.py lines 37-43). -/
def visitedCount (s : St) (user_id route_id : Nat) : Nat :=
  (s.visited_points.filter (fun v =>
    v.user_id == user_id && checkpointOnRoute s v.checkpoint_id route_id &&
      v.visited)).length

/-- Query `count(VisitedPoint)` joined to the route's checkpoints with
`audio_status == COMPLETED` — no visibility filter (service.py lines 46-52). -/
def audioCount (s : St) (user_id route_id : Nat) : Nat :=
  (s.visited_points.filter (fun v =>
    v.user_id == user_id && checkpointOnRoute s v.checkpoint_id route_id &&
      decide (v.audio_status = AudioListenStatus.completed))).length

/-- Method `RouteService._calculate_user_progress` (service.py lines 28-61). -/
def calculate_user_progress (s : St) (user_id route_id : Nat) : Progress :=
  let total := totalCount s route_id
  let audio_completed := audioCount s user_id route_id
  let progress_pct : ℚ :=
    if total > 0 then (audio_completed : ℚ) / (total : ℚ) * 100 else 0
  { checkpoints_visited := visitedCount s user_id route_id
    checkpoints_total := total
    audio_completed := audio_completed
    progress_percent := pyRound1 progress_pct }

/-- Method `RouteService._check_automatic_completion` (service.py lines 63-85).
Returns the post-state and whether the completion write happened. -/
def check_automatic_completion (s : St) (user_id tour_id now : Nat) : St × Bool :=
  match findActiveSession s user_id tour_id with
  | Option.none => (s, false)
  | Option.some sess =>
    if (calculate_user_progress s user_id sess.locked_route_id).audio_completed ≥
         (calculate_user_progress s user_id sess.locked_route_id).checkpoints_total ∧
       (calculate_user_progress s user_id sess.locked_route_id).checkpoints_total > 0
    then
      (updateSession s sess.id (fun x =>
        { x with completed_at := Option.some now
                 completion_type := Option.some CompletionType.automatic }), true)
    else
      (s, false)

/-- Method `RouteService.create_tour` (service.py lines 650-661). -/
def create_tour (s : St) (user_id city_id : Nat) (slug : String)
    (status : TourStatus) : St × Tour :=
  let tour : Tour :=
    { id := s.next_id, city_id := city_id, slug := slug, status := status
      published_route_id := Option.none, created_by_user_id := user_id }
  ({ s with tours := s.tours ++ [tour], next_id := s.next_id + 1 }, tour)

/-- Method `RouteService.update_tour` (service.py lines 663-676). -/
def update_tour (s : St) (tid : Nat) (slug : Option String)
    (status : Option TourStatus) : Option (St × Tour) :=
  match findTour s tid with
  | Option.none => Option.none
  | Option.some tour =>
    let f : Tour → Tour := fun t =>
      let t1 := match slug with
        | Option.none => t
        | Option.some sl => { t with slug := sl }
      match status with
      | Option.none => t1
      | Option.some st => { t1 with status := st }
    Option.some (updateTour s tid f, f tour)

/-- Method `RouteService.create_route` (service.py lines 757-819).  The geojson point
features are abstracted to their visibility flags (`cps`); checkpoints are
created with `seq_no` counting up from 0, exactly as the loop over point
features does. -/
def create_route (s : St) (tour_id user_id : Nat) (cps : List Bool) :
    Option (St × Route) :=
  match findTour s tour_id with
  | Option.none => Option.none
  | Option.some _tour =>
    let max_version :=
      (s.routes.filter (fun r => r.tour_id == tour_id)).foldl
        (fun m r => max m r.version_no) 0
    let route : Route :=
      { id := s.next_id, tour_id := tour_id, version_no := max_version + 1
        status := RouteStatus.draft, published_at := Option.none
        created_by_user_id := user_id }
    let newCps := s.checkpoints ++
      cps.enum.map (fun p =>
        ({ id := s.next_id + 1 + p.1, route_id := route.id, seq_no := p.1
           is_visible := p.2 } : Checkpoint))
    Option.some
      ({ s with
          routes := s.routes ++ [route]
          checkpoints := newCps
          next_id := s.next_id + 1 + cps.length }, route)

/-- Step 1 of `RouteService.publish_route` (service.py lines 902-909): if the
tour points at a previously published route, set that route to superseded
(the `if old_route:` guard is the identity of `updateRoute` on a missing id). -/
def supersedeOld (s : St) (oldPtr : Option Nat) : St :=
  match oldPtr with
  | Option.none => s
  | Option.some oldId =>
    updateRoute s oldId (fun r => { r with status := RouteStatus.superseded })

/-- Step 2 of `RouteService.publish_route` (service.py lines 911-914): publish
the target route, stamping `published_at` with the current time. -/
def publishTarget (s : St) (route_id now : Nat) : St :=
  updateRoute s route_id (fun r =>
    { r with status := RouteStatus.published, published_at := Option.some now })

/-- Step 3 of `RouteService.publish_route` (service.py lines 916-920): point
the tour at the new route and force its status to published if it was not. -/
def tourPublishUpd (route_id : Nat) : Tour → Tour := fun t =>
  { t with
      published_route_id := Option.some route_id
      status := if t.status = TourStatus.published then t.status
        else TourStatus.published }

/-- The per-row effect of steps 1-2 of a publish on the version table, as a
single function of the tour's previous pointer: used to reason about
`publishTarget ∘ supersedeOld`. -/
def publishF (ptr : Option Nat) (route_id now : Nat) : Route → Route := fun r =>
  if r.id = route_id then
    { r with status := RouteStatus.published, published_at := Option.some now }
  else
    match ptr with
    | Option.none => r
    | Option.some oldId =>
      if r.id = oldId then { r with status := RouteStatus.superseded } else r

/-- Method `RouteService.publish_route` (service.py lines 892-924). -/
def publish_route (s : St) (tour_id route_id now : Nat) : Option (St × Tour) :=
  match findTour s tour_id with
  | Option.none => Option.none
  | Option.some tour =>
    match findRoute s route_id with
    | Option.none => Option.none
    | Option.some route =>
      if route.tour_id = tour_id then
        Option.some
          (updateTour (publishTarget (supersedeOld s tour.published_route_id) route_id now)
            tour_id (tourPublishUpd route_id),
           tourPublishUpd route_id tour)
      else
        Option.none

/-- Method `RouteService.start_tour` (service.py lines 557-583). -/
def start_tour (s : St) (user_id tour_id now : Nat) :
    Option (St × UserActiveTour) :=
  match findTour s tour_id with
  | Option.none => Option.none
  | Option.some tour =>
    match tour.published_route_id with
    | Option.none => Option.none
    | Option.some prid =>
      match findSession s user_id tour_id with
      | Option.some existing => Option.some (s, existing)
      | Option.none =>
        let sess : UserActiveTour :=
          { id := s.next_id, user_id := user_id, tour_id := tour_id
            locked_route_id := prid, started_at := now
            completed_at := Option.none, completion_type := Option.none }
        Option.some
          ({ s with sessions := s.sessions ++ [sess], next_id := s.next_id + 1 },
           sess)

/-- Method `RouteService.finish_tour` (service.py lines 585-600). -/
def finish_tour (s : St) (user_id tour_id now : Nat) :
    Option (St × UserActiveTour) :=
  match findActiveSession s user_id tour_id with
  | Option.none => Option.none
  | Option.some sess =>
    let sess' := { sess with
      completed_at := Option.some now
      completion_type := Option.some CompletionType.manual }
    Option.some (updateSession s sess.id (fun _ => sess'), sess')

/-- Outcome of the `POST /{route_id}/finish` endpoint. -/
inductive FinishResult
  | ok (sess : UserActiveTour)
  | httpError (code : Nat) (detail : String)
deriving DecidableEq, Repr

/-- Endpoint `finish_route` (router.py lines 201-222): a `None` from the service
becomes HTTP 404 and the state is left untouched. -/
def finish_route_endpoint (s : St) (user_id tour_id now : Nat) :
    St × FinishResult :=
  match finish_tour s user_id tour_id now with
  | Option.none => (s, FinishResult.httpError 404 "No active session for this route")
  | Option.some (s', sess) => (s', FinishResult.ok sess)

/-- Insertion step for the `ORDER BY seq_no` model. -/
def insertBySeq (c : Checkpoint) : List Checkpoint → List Checkpoint
  | [] => [c]
  | d :: ds => if c.seq_no ≤ d.seq_no then c :: d :: ds else d :: insertBySeq c ds

/-- Sorting `ORDER BY seq_no` as an insertion sort. -/
def sortBySeq : List Checkpoint → List Checkpoint
  | [] => []
  | c :: cs => insertBySeq c (sortBySeq cs)

/-- Method `RouteService.get_tour_checkpoints` (service.py lines 327-391), projected to
the checkpoint rows it returns (the per-row progress enrichment reads but never
writes state). -/
def get_tour_checkpoints (s : St) (tour_id : Nat) (user_id : Option Nat) :
    List Checkpoint :=
  match findTour s tour_id with
  | Option.none => []
  | Option.some tour =>
    match tour.published_route_id with
    | Option.none => []
    | Option.some prid =>
      let route_id :=
        match user_id with
        | Option.none => prid
        | Option.some uid =>
          match findActiveSession s uid tour_id with
          | Option.some active => active.locked_route_id
          | Option.none => prid
      sortBySeq (s.checkpoints.filter (fun c => c.route_id == route_id))

/-- The upsert part of `RouteService.mark_checkpoint_visited` (service.py
lines 401-424): the committed state and the written row. -/
def visited_write (s : St) (user_id checkpoint_id now : Nat) : St × VisitedPoint :=
  match findVP s user_id checkpoint_id with
  | Option.some vp =>
    if vp.visited then (s, vp)
    else
      let vp' := { vp with visited := true, visited_at := Option.some now }
      (updateVP s user_id checkpoint_id (fun _ => vp'), vp')
  | Option.none =>
    let vp' : VisitedPoint :=
      { user_id := user_id, checkpoint_id := checkpoint_id, visited := true
        visited_at := Option.some now
        audio_status := AudioListenStatus.none
        audio_started_at := Option.none, audio_completed_at := Option.none }
    ({ s with visited_points := s.visited_points ++ [vp'] }, vp')

/-- The upsert part of `RouteService.update_audio_status` (service.py
lines 443-468): the committed state and the written row. -/
def audio_write (s : St) (user_id checkpoint_id : Nat)
    (new_status : AudioListenStatus) (now : Nat) : St × VisitedPoint :=
  match findVP s user_id checkpoint_id with
  | Option.some vp =>
    let vp' := { vp with
      audio_status := new_status
      audio_started_at :=
        if new_status = AudioListenStatus.started ∧ vp.audio_started_at = Option.none
        then Option.some now else vp.audio_started_at
      audio_completed_at :=
        if new_status = AudioListenStatus.completed ∧ vp.audio_completed_at = Option.none
        then Option.some now else vp.audio_completed_at }
    (updateVP s user_id checkpoint_id (fun _ => vp'), vp')
  | Option.none =>
    let vp' : VisitedPoint :=
      { user_id := user_id, checkpoint_id := checkpoint_id, visited := false
        visited_at := Option.none
        audio_status := new_status
        audio_started_at :=
          if new_status = AudioListenStatus.started then Option.some now
          else Option.none
        audio_completed_at :=
          if new_status = AudioListenStatus.completed then Option.some now
          else Option.none }
    ({ s with visited_points := s.visited_points ++ [vp'] }, vp')

/-- The post-commit automatic-completion trigger shared by both progress
writes (service.py lines 426-431 and 470-475): look up the tour owning the
touched route and run the completion check on it. -/
def completion_side_effect (s1 : St) (user_id route_id now : Nat) : St :=
  match findTourOfRoute s1 route_id with
  | Option.none => s1
  | Option.some tour => (check_automatic_completion s1 user_id tour.id now).1

/-- Method `RouteService.mark_checkpoint_visited` (service.py lines 395-433). -/
def mark_checkpoint_visited (s : St) (user_id checkpoint_id now : Nat) :
    Option (St × VisitedPoint) :=
  match findCheckpoint s checkpoint_id with
  | Option.none => Option.none
  | Option.some checkpoint =>
    let sv := visited_write s user_id checkpoint_id now
    Option.some (completion_side_effect sv.1 user_id checkpoint.route_id now, sv.2)

/-- Method `RouteService.update_audio_status` (service.py lines 435-477). -/
def update_audio_status (s : St) (user_id checkpoint_id : Nat)
    (new_status : AudioListenStatus) (now : Nat) : Option (St × VisitedPoint) :=
  match findCheckpoint s checkpoint_id with
  | Option.none => Option.none
  | Option.some checkpoint =>
    let sv := audio_write s user_id checkpoint_id new_status now
    Option.some (completion_side_effect sv.1 user_id checkpoint.route_id now, sv.2)

/-! ### Reachable states

States produced from the empty store by the content-lifecycle operations. -/

/-- Reachability through the content operations `create_tour`, `update_tour`,
`create_route` (createVersion) and `publish_route` (publish). -/
inductive Reach : St → Prop
  | init : Reach St.empty
  | step_create_tour {s : St} {uid city : Nat} {slug : String} {status : TourStatus} :
      Reach s → Reach (create_tour s uid city slug status).1
  | step_update_tour {s s' : St} {tid : Nat} {sl : Option String}
      {st : Option TourStatus} {t : Tour} :
      Reach s → update_tour s tid sl st = Option.some (s', t) → Reach s'
  | step_create_route {s s' : St} {tid uid : Nat} {cps : List Bool} {r : Route} :
      Reach s → create_route s tid uid cps = Option.some (s', r) → Reach s'
  | step_publish {s s' : St} {tid rid now : Nat} {t : Tour} :
      Reach s → publish_route s tid rid now = Option.some (s', t) → Reach s'

/-- The state invariant maintained by the content operations: version-table
primary keys and tour-table primary keys are unique and below the id counter,
every `published` version is the one its tour's `published_route_id` points to,
and every `published_route_id` points at an existing `published` version of
that tour. -/
def Inv (s : St) : Prop :=
  (s.tours.map Tour.id).Nodup ∧
  (s.routes.map Route.id).Nodup ∧
  (∀ t ∈ s.tours, t.id < s.next_id) ∧
  (∀ r ∈ s.routes, r.id < s.next_id) ∧
  (∀ r ∈ s.routes, r.status = RouteStatus.published →
    ∃ t ∈ s.tours, t.id = r.tour_id ∧ t.published_route_id = Option.some r.id) ∧
  (∀ t ∈ s.tours, ∀ rid, t.published_route_id = Option.some rid →
    ∃ r ∈ s.routes, r.id = rid ∧ r.tour_id = t.id ∧ r.status = RouteStatus.published)

/-! ### Concrete scenario states

Traces of the operations from the empty store, used to exercise the theorems
on explicit inputs. -/

/-- Fallback rows, used only to make projections of scenario traces total. -/
def dummyRoute : Route :=
  { id := 0, tour_id := 0, version_no := 0, status := RouteStatus.draft
    published_at := Option.none, created_by_user_id := 0 }

def dummyVP : VisitedPoint :=
  { user_id := 0, checkpoint_id := 0, visited := false, visited_at := Option.none
    audio_status := AudioListenStatus.none, audio_started_at := Option.none
    audio_completed_at := Option.none }

def dummyTour : Tour :=
  { id := 0, city_id := 0, slug := "", status := TourStatus.draft
    published_route_id := Option.none, created_by_user_id := 0 }

def dummySession : UserActiveTour :=
  { id := 0, user_id := 0, tour_id := 0, locked_route_id := 0, started_at := 0
    completed_at := Option.none, completion_type := Option.none }

def dummyCheckpoint : Checkpoint :=
  { id := 0, route_id := 0, seq_no := 0, is_visible := true }

/-- State projection of an operation result. -/
def stepSt {α : Type} (o : Option (St × α)) : St := (o.map Prod.fst).getD St.empty

/-- Tour 0 created by editor 7 in city 1. -/
def exS1 : St := (create_tour St.empty 7 1 "berlin" TourStatus.draft).1

/-- Version 1 (route id 1) of tour 0, two visible checkpoints (ids 2, 3). -/
def exS2 : St := stepSt (create_route exS1 0 7 [true, true])

/-- Version 1 published at time 5. -/
def exS3 : St := stepSt (publish_route exS2 0 1 5)

/-- Version 2 (route id 4) of tour 0, three visible checkpoints (ids 5, 6, 7). -/
def exS4 : St := stepSt (create_route exS3 0 7 [true, true, true])

/-- Version 2 published at time 9; version 1 superseded. -/
def exS5 : St := stepSt (publish_route exS4 0 4 9)

/-- The route row returned when version 1 was created. -/
def exR1 : Route := ((create_route exS1 0 7 [true, true]).map Prod.snd).getD dummyRoute

/-- The tour row returned by the first publish. -/
def exT3 : Tour := ((publish_route exS2 0 1 5).map Prod.snd).getD dummyTour

/-- The route row returned when version 2 was created. -/
def exR2 : Route :=
  ((create_route exS3 0 7 [true, true, true]).map Prod.snd).getD dummyRoute

/-- The tour row returned by the second publish. -/
def exT5 : Tour := ((publish_route exS4 0 4 9).map Prod.snd).getD dummyTour

/-- The stored version-1 row while version 2 is still a draft. -/
def pubR1 : Route := (findRoute exS4 1).getD dummyRoute

/-- The stored tour row after the first publish. -/
def exTour3 : Tour := (findTour exS3 0).getD dummyTour

/-- User 42 starts tour 0 while version 1 is published and version 2 is a
draft (session id 8). -/
def c4s1 : St := stepSt (start_tour exS4 42 0 6)

/-- The session row returned by that start. -/
def c4x : UserActiveTour :=
  ((start_tour exS4 42 0 6).map Prod.snd).getD dummySession

/-- Version 2 published at time 9 while user 42's session is active. -/
def c4s2 : St := stepSt (publish_route c4s1 0 4 9)

/-- The tour row returned by that publish. -/
def c4t : Tour := ((publish_route c4s1 0 4 9).map Prod.snd).getD dummyTour

/-- User 42 starts tour 0 again after the republish. -/
def c4s3 : St := stepSt (start_tour c4s2 42 0 10)

/-- The session row returned by the second start. -/
def c4x2 : UserActiveTour :=
  ((start_tour c4s2 42 0 10).map Prod.snd).getD dummySession

/-- User 42 starts tour 0 while version 1 is published (session id 4). -/
def c5s0 : St := stepSt (start_tour exS3 42 0 6)

/-- User 42 manually finishes tour 0 at time 7. -/
def c5s1 : St := stepSt (finish_tour c5s0 42 0 7)

/-- Version 1 (route id 1) of tour 0 with one visible checkpoint (id 2) and two
invisible ones (ids 3, 4). -/
def c10s1 : St := stepSt (create_route exS1 0 7 [true, false, false])

/-- That version published at time 5. -/
def c10s2 : St := stepSt (publish_route c10s1 0 1 5)

/-- User 42 starts tour 0 (session id 5). -/
def c10s3 : St := stepSt (start_tour c10s2 42 0 6)

/-- User 42 completes the audio of invisible checkpoint 3 at time 7. -/
def c10s4 : St := stepSt (update_audio_status c10s3 42 3 AudioListenStatus.completed 7)

/-- User 42 completes the audio of invisible checkpoint 4 at time 8. -/
def c10s5 : St := stepSt (update_audio_status c10s4 42 4 AudioListenStatus.completed 8)

/-- Version 1 (route id 1) of tour 0 with a single visible checkpoint (id 2). -/
def c8s1 : St := stepSt (create_route exS1 0 7 [true])

/-- That version published at time 5. -/
def c8s2 : St := stepSt (publish_route c8s1 0 1 5)

/-- User 42 starts tour 0 (session id 3). -/
def c8s3 : St := stepSt (start_tour c8s2 42 0 6)

/-- The state written by the C8 witness call. -/
def c8s4 : St := stepSt (update_audio_status c8s3 42 2 AudioListenStatus.completed 7)

/-- The row written by the C8 witness call. -/
def c8vp : VisitedPoint :=
  ((update_audio_status c8s3 42 2 AudioListenStatus.completed 7).map Prod.snd).getD dummyVP

/-- Version 1 of tour 0 re-published at time 9 (same version published twice). -/
def c2s : St := stepSt (publish_route exS3 0 1 9)

/-- Tour 0 demoted back to `draft` by `update_tour` after its version was
published. -/
def c3s : St := stepSt (update_tour exS3 0 Option.none (Option.some TourStatus.draft))

/-- The state written by the C9 witness call. -/
def c9s : St := stepSt (update_audio_status exS3 42 2 AudioListenStatus.started 6)

/-- The row written by the C9 witness call. -/
def c9vp : VisitedPoint :=
  ((update_audio_status exS3 42 2 AudioListenStatus.started 6).map Prod.snd).getD dummyVP

/-- A second audio write on the same row: completed at time 8. -/
def c9s2 : St := stepSt (update_audio_status c9s 42 2 AudioListenStatus.completed 8)

/-- The row written by the second audio write. -/
def c9vp2 : VisitedPoint :=
  ((update_audio_status c9s 42 2 AudioListenStatus.completed 8).map Prod.snd).getD dummyVP

/-- The checkpoint touched by the C8 witness call. -/
def c8cp : Checkpoint := (findCheckpoint c8s3 2).getD dummyCheckpoint

/-- The tour owning it. -/
def c8tour : Tour := (findTourOfRoute c8s3 1).getD dummyTour

/-- User 42's active session before the C8 witness call. -/
def c8sess : UserActiveTour := (findActiveSession c8s3 42 0).getD dummySession

/-! ## General lemmas -/

theorem pyRound1_zero : pyRound1 0 = 0 := by
  norm_num [pyRound1, roundHalfEven]

theorem find?_map_pred_inv {α : Type} (g : α → α) (p : α → Bool)
    (hg : ∀ x, p (g x) = p x) (l : List α) :
    (l.map g).find? p = (l.find? p).map g := by
  induction l with
  | nil => rfl
  | cons a t ih =>
    cases hpa : p a with
    | true =>
      rw [List.map_cons, List.find?_cons_of_pos _ (by rw [hg a]; exact hpa),
        List.find?_cons_of_pos _ hpa]
      rfl
    | false =>
      rw [List.map_cons, List.find?_cons_of_neg _ (by rw [hg a, hpa]; simp),
        List.find?_cons_of_neg _ (by rw [hpa]; simp), ih]

theorem find?_key_unique {α : Type} (key : α → Nat) {l : List α}
    (hnd : (l.map key).Nodup) {x : α} (hx : x ∈ l) {k : Nat} (hk : key x = k) :
    l.find? (fun y => key y == k) = Option.some x := by
  induction l with
  | nil => cases hx
  | cons a t ih =>
    rw [List.map_cons, List.nodup_cons] at hnd
    rcases List.mem_cons.mp hx with rfl | hmem
    · exact List.find?_cons_of_pos _ (by simp [hk])
    · have hne : ¬ ((key a == k) = true) := by
        simp only [beq_iff_eq]
        intro he
        apply hnd.1
        have hmm : key x ∈ t.map key := List.mem_map_of_mem key hmem
        rwa [hk, ← he] at hmm
      rw [List.find?_cons_of_neg (p := fun y => key y == k) t hne]
      exact ih hnd.2 hmem

theorem find?_append_none {α : Type} {p : α → Bool} {l1 : List α} (l2 : List α)
    (h : l1.find? p = Option.none) : (l1 ++ l2).find? p = l2.find? p := by
  rw [List.find?_append, h]
  rfl

/-! ### Frame facts about the keyed updates -/

theorem supersedeOld_tours (s : St) (ptr : Option Nat) :
    (supersedeOld s ptr).tours = s.tours := by cases ptr <;> rfl

theorem supersedeOld_checkpoints (s : St) (ptr : Option Nat) :
    (supersedeOld s ptr).checkpoints = s.checkpoints := by cases ptr <;> rfl

theorem supersedeOld_visited (s : St) (ptr : Option Nat) :
    (supersedeOld s ptr).visited_points = s.visited_points := by cases ptr <;> rfl

theorem supersedeOld_sessions (s : St) (ptr : Option Nat) :
    (supersedeOld s ptr).sessions = s.sessions := by cases ptr <;> rfl

theorem findTour_congr {s1 s2 : St} (h : s1.tours = s2.tours) (tid : Nat) :
    findTour s1 tid = findTour s2 tid := by unfold findTour; rw [h]

theorem findRoute_congr {s1 s2 : St} (h : s1.routes = s2.routes) (rid : Nat) :
    findRoute s1 rid = findRoute s2 rid := by unfold findRoute; rw [h]

theorem findVP_congr {s1 s2 : St} (h : s1.visited_points = s2.visited_points)
    (uid cid : Nat) : findVP s1 uid cid = findVP s2 uid cid := by
  unfold findVP; rw [h]

theorem findSession_congr {s1 s2 : St} (h : s1.sessions = s2.sessions)
    (uid tid : Nat) : findSession s1 uid tid = findSession s2 uid tid := by
  unfold findSession; rw [h]

theorem findActiveSession_congr {s1 s2 : St} (h : s1.sessions = s2.sessions)
    (uid tid : Nat) :
    findActiveSession s1 uid tid = findActiveSession s2 uid tid := by
  unfold findActiveSession; rw [h]

theorem findTourOfRoute_congr {s1 s2 : St} (hr : s1.routes = s2.routes)
    (ht : s1.tours = s2.tours) (rid : Nat) :
    findTourOfRoute s1 rid = findTourOfRoute s2 rid := by
  unfold findTourOfRoute
  rw [findRoute_congr hr]
  cases findRoute s2 rid with
  | none => rfl
  | some r => exact findTour_congr ht r.tour_id

theorem calculate_congr {s1 s2 : St} (hc : s1.checkpoints = s2.checkpoints)
    (hv : s1.visited_points = s2.visited_points) (uid rid : Nat) :
    calculate_user_progress s1 uid rid = calculate_user_progress s2 uid rid := by
  unfold calculate_user_progress totalCount audioCount visitedCount
    checkpointOnRoute
  simp only [hc, hv]

/-! ### Destructuring `publish_route` -/

theorem publish_route_eq {s s' : St} {tid rid now : Nat} {t' : Tour}
    (h : publish_route s tid rid now = Option.some (s', t')) :
    ∃ tour route, findTour s tid = Option.some tour ∧
      findRoute s rid = Option.some route ∧ route.tour_id = tid ∧
      s' = updateTour (publishTarget (supersedeOld s tour.published_route_id)
        rid now) tid (tourPublishUpd rid) ∧
      t' = tourPublishUpd rid tour := by
  unfold publish_route at h
  split at h
  · cases h
  next tour hft =>
    split at h
    · cases h
    next route hfr =>
      split at h
      next hb =>
        injection h with h'
        exact ⟨tour, route, hft, hfr, hb,
          (congrArg Prod.fst h').symm, (congrArg Prod.snd h').symm⟩
      next hb => cases h

theorem publish_frame {s s' : St} {tid rid now : Nat} {t' : Tour}
    (h : publish_route s tid rid now = Option.some (s', t')) :
    s'.checkpoints = s.checkpoints ∧ s'.visited_points = s.visited_points ∧
    s'.sessions = s.sessions ∧ s'.next_id = s.next_id := by
  obtain ⟨tour, route, _, _, _, hs', _⟩ := publish_route_eq h
  subst hs'
  refine ⟨?_, ?_, ?_, ?_⟩ <;> cases tour.published_route_id <;> rfl

theorem tourPublishUpd_id (rid : Nat) (t : Tour) :
    (tourPublishUpd rid t).id = t.id := rfl

theorem publish_findTour {s s' : St} {tid rid now : Nat} {t' : Tour}
    (h : publish_route s tid rid now = Option.some (s', t')) :
    ∃ tour, findTour s tid = Option.some tour ∧
      findTour s' tid = Option.some (tourPublishUpd rid tour) ∧
      t' = tourPublishUpd rid tour := by
  obtain ⟨tour, route, hft, hfr, hb, hs', ht'⟩ := publish_route_eq h
  subst hs'
  refine ⟨tour, hft, ?_, ht'⟩
  have hXt : (publishTarget (supersedeOld s tour.published_route_id) rid now).tours
      = s.tours := by
    cases tour.published_route_id <;> rfl
  have hg : ∀ x : Tour,
      ((if x.id = tid then tourPublishUpd rid x else x).id == tid) = (x.id == tid) := by
    intro x
    by_cases hx : x.id = tid
    · simp [hx, tourPublishUpd]
    · simp [hx]
  show (((publishTarget (supersedeOld s tour.published_route_id) rid now).tours).map
    (fun t => if t.id = tid then tourPublishUpd rid t else t)).find?
      (fun t => t.id == tid) = Option.some (tourPublishUpd rid tour)
  rw [find?_map_pred_inv _ _ hg, hXt]
  have htid : tour.id = tid := by
    have := List.find?_some hft
    simpa using this
  show (findTour s tid).map _ = _
  rw [hft]
  simp [htid]

theorem update_tour_eq {s s' : St} {tid : Nat} {sl : Option String}
    {st : Option TourStatus} {t' : Tour}
    (h : update_tour s tid sl st = Option.some (s', t')) :
    ∃ tour f, findTour s tid = Option.some tour ∧ s' = updateTour s tid f ∧
      t' = f tour ∧ (∀ x : Tour, (f x).id = x.id) ∧
      (∀ x : Tour, (f x).published_route_id = x.published_route_id) := by
  unfold update_tour at h
  split at h
  · cases h
  next tour hft =>
    injection h with h'
    refine ⟨tour, _, hft, (congrArg Prod.fst h').symm, (congrArg Prod.snd h').symm,
      ?_, ?_⟩ <;>
      intro x <;> cases sl <;> cases st <;> rfl

theorem create_route_eq {s s' : St} {tid uid : Nat} {cps : List Bool} {r : Route}
    (h : create_route s tid uid cps = Option.some (s', r)) :
    ∃ tour, findTour s tid = Option.some tour ∧ s'.tours = s.tours ∧
      s'.routes = s.routes ++ [r] ∧ s'.sessions = s.sessions ∧
      s'.visited_points = s.visited_points ∧ r.id = s.next_id ∧
      r.status = RouteStatus.draft ∧ s.next_id < s'.next_id := by
  unfold create_route at h
  split at h
  · cases h
  next tour hft =>
    rw [Option.some.injEq, Prod.mk.injEq] at h
    obtain ⟨hs', hr⟩ := h
    subst hs'
    subst hr
    exact ⟨tour, hft, rfl, rfl, rfl, rfl, rfl, rfl,
      by show s.next_id < s.next_id + 1 + cps.length; omega⟩

/-- The effect of a publish on the version table: the target becomes published
with `published_at := now`, the previously pointed-at version (if any, and if a
different row) becomes superseded, everything else is untouched. -/
theorem routes_after_publish (s : St) (ptr : Option Nat) (rid now : Nat) :
    (publishTarget (supersedeOld s ptr) rid now).routes =
      s.routes.map (publishF ptr rid now) := by
  unfold publishF
  cases ptr with
  | none =>
    show s.routes.map _ = s.routes.map _
    apply List.map_congr_left
    intro r _
    by_cases hr : r.id = rid <;> simp [hr]
  | some oldId =>
    show (s.routes.map _).map _ = s.routes.map _
    rw [List.map_map]
    apply List.map_congr_left
    intro r _
    simp only [Function.comp]
    by_cases hr : r.id = rid
    · by_cases ho : r.id = oldId
      · have hro : rid = oldId := hr ▸ ho
        simp [hr, ho, hro]
      · have hro : ¬ rid = oldId := fun he => ho (hr.symm ▸ he)
        simp [hr, ho, hro]
    · by_cases ho : r.id = oldId
      · have hro : ¬ oldId = rid := fun he => hr (ho.trans he)
        simp [hr, ho, hro]
      · simp [hr, ho]

theorem publishF_target (ptr : Option Nat) (rid now : Nat) (r : Route)
    (h : r.id = rid) :
    publishF ptr rid now r =
      { r with status := RouteStatus.published, published_at := Option.some now } := by
  unfold publishF
  rw [if_pos h]

theorem publishF_old (oldId rid now : Nat) (r : Route) (h : r.id ≠ rid)
    (ho : r.id = oldId) :
    publishF (Option.some oldId) rid now r =
      { r with status := RouteStatus.superseded } := by
  unfold publishF
  rw [if_neg h]
  exact if_pos ho

theorem publishF_other_none (rid now : Nat) (r : Route) (h : r.id ≠ rid) :
    publishF Option.none rid now r = r := by
  unfold publishF
  rw [if_neg h]

theorem publishF_other_some (oldId rid now : Nat) (r : Route) (h : r.id ≠ rid)
    (ho : r.id ≠ oldId) : publishF (Option.some oldId) rid now r = r := by
  unfold publishF
  rw [if_neg h]
  exact if_neg ho

theorem tourPublishUpd_ptr (rid : Nat) (t : Tour) :
    (tourPublishUpd rid t).published_route_id = Option.some rid := rfl

theorem publishF_id (ptr : Option Nat) (rid now : Nat) (r : Route) :
    (publishF ptr rid now r).id = r.id := by
  by_cases hr : r.id = rid
  · rw [publishF_target ptr rid now r hr]
  · cases ptr with
    | none => rw [publishF_other_none rid now r hr]
    | some oldId =>
      by_cases ho : r.id = oldId
      · rw [publishF_old oldId rid now r hr ho]
      · rw [publishF_other_some oldId rid now r hr ho]

/-! ### The invariant is preserved by every content operation -/

theorem inv_empty : Inv St.empty := by
  unfold Inv St.empty
  simp

theorem inv_create_tour (s : St) (uid city : Nat) (slug : String)
    (status : TourStatus) (h : Inv s) :
    Inv (create_tour s uid city slug status).1 := by
  obtain ⟨hnt, hnr, hbt, hbr, h1, h2⟩ := h
  unfold create_tour Inv
  refine ⟨?_, hnr, ?_, ?_, ?_, ?_⟩
  · rw [List.map_append, List.nodup_append]
    refine ⟨hnt, List.nodup_singleton _, ?_⟩
    intro a ha hb
    rw [List.map_singleton, List.mem_singleton] at hb
    subst hb
    obtain ⟨t, ht, hteq⟩ := List.mem_map.mp ha
    have hteq' : t.id = s.next_id := hteq
    have := hbt t ht
    omega
  · intro t ht
    rcases List.mem_append.mp ht with h' | h'
    · exact Nat.lt_succ_of_lt (hbt t h')
    · rw [List.mem_singleton] at h'
      subst h'
      show s.next_id < s.next_id + 1
      omega
  · intro r hr
    exact Nat.lt_succ_of_lt (hbr r hr)
  · intro r hr hpub
    obtain ⟨t, ht, h'⟩ := h1 r hr hpub
    exact ⟨t, List.mem_append_left _ ht, h'⟩
  · intro t ht rid hrid
    rcases List.mem_append.mp ht with h' | h'
    · exact h2 t h' rid hrid
    · rw [List.mem_singleton] at h'
      subst h'
      cases hrid

theorem inv_update_tour {s s' : St} {tid : Nat} {sl : Option String}
    {st : Option TourStatus} {t' : Tour} (h : Inv s)
    (hu : update_tour s tid sl st = Option.some (s', t')) : Inv s' := by
  obtain ⟨tour, f, hft, hs', ht', hfid, hfptr⟩ := update_tour_eq hu
  subst hs'
  obtain ⟨hnt, hnr, hbt, hbr, h1, h2⟩ := h
  refine ⟨?_, hnr, ?_, hbr, ?_, ?_⟩
  · show ((s.tours.map _).map Tour.id).Nodup
    rw [List.map_map]
    have heq : s.tours.map (Tour.id ∘ fun t => if t.id = tid then f t else t)
        = s.tours.map Tour.id := by
      apply List.map_congr_left
      intro t _
      by_cases hx : t.id = tid <;> simp [Function.comp, hx, hfid]
    rw [heq]
    exact hnt
  · intro t ht
    obtain ⟨x, hx, rfl⟩ := List.mem_map.mp ht
    have hb := hbt x hx
    by_cases hxx : x.id = tid
    · simpa [hxx, hfid] using hb
    · simpa [hxx] using hb
  · intro r hr hpub
    obtain ⟨t, ht, hid, hptr⟩ := h1 r hr hpub
    refine ⟨(if t.id = tid then f t else t), List.mem_map_of_mem _ ht, ?_, ?_⟩
    · by_cases hxx : t.id = tid
      · rw [if_pos hxx, hfid]
        exact hid
      · rw [if_neg hxx]
        exact hid
    · by_cases hxx : t.id = tid
      · rw [if_pos hxx, hfptr]
        exact hptr
      · rw [if_neg hxx]
        exact hptr
  · intro t ht rid hrid
    obtain ⟨x, hx, rfl⟩ := List.mem_map.mp ht
    have hptr : x.published_route_id = Option.some rid := by
      by_cases hxx : x.id = tid
      · rw [if_pos hxx, hfptr] at hrid
        exact hrid
      · rw [if_neg hxx] at hrid
        exact hrid
    obtain ⟨r, hrm, hrid', hrt, hrp⟩ := h2 x hx rid hptr
    refine ⟨r, hrm, hrid', ?_, hrp⟩
    by_cases hxx : x.id = tid
    · rw [if_pos hxx, hfid]
      exact hrt
    · rw [if_neg hxx]
      exact hrt

theorem inv_create_route {s s' : St} {tid uid : Nat} {cps : List Bool} {r : Route}
    (h : Inv s) (hc : create_route s tid uid cps = Option.some (s', r)) :
    Inv s' := by
  obtain ⟨tour, hft, htours, hroutes, hsess, hvp, hrid, hrstat, hnext⟩ :=
    create_route_eq hc
  obtain ⟨hnt, hnr, hbt, hbr, h1, h2⟩ := h
  refine ⟨?_, ?_, ?_, ?_, ?_, ?_⟩
  · rw [htours]; exact hnt
  · rw [hroutes, List.map_append, List.nodup_append]
    refine ⟨hnr, List.nodup_singleton _, ?_⟩
    intro a ha hb
    rw [List.map_singleton, List.mem_singleton] at hb
    subst hb
    obtain ⟨x, hx, hxeq⟩ := List.mem_map.mp ha
    have := hbr x hx
    omega
  · intro t ht
    rw [htours] at ht
    exact lt_of_lt_of_le (hbt t ht) (le_of_lt hnext)
  · intro x hx
    rw [hroutes] at hx
    rcases List.mem_append.mp hx with h' | h'
    · exact lt_of_lt_of_le (hbr x h') (le_of_lt hnext)
    · rw [List.mem_singleton] at h'
      subst h'
      omega
  · intro x hx hpub
    rw [hroutes] at hx
    rcases List.mem_append.mp hx with h' | h'
    · obtain ⟨t, ht, h''⟩ := h1 x h' hpub
      exact ⟨t, by rw [htours]; exact ht, h''⟩
    · rw [List.mem_singleton] at h'
      subst h'
      exact absurd (hrstat.symm.trans hpub) (by decide)
  · intro t ht rid2 hrid2
    rw [htours] at ht
    obtain ⟨r0, hr0, h''⟩ := h2 t ht rid2 hrid2
    exact ⟨r0, by rw [hroutes]; exact List.mem_append_left _ hr0, h''⟩

theorem inv_publish {s s' : St} {tid rid now : Nat} {t' : Tour} (h : Inv s)
    (hp : publish_route s tid rid now = Option.some (s', t')) : Inv s' := by
  obtain ⟨tour, route, hft, hfr, hb, hs', ht'⟩ := publish_route_eq hp
  obtain ⟨hnt, hnr, hbt, hbr, h1, h2⟩ := h
  have htourmem : tour ∈ s.tours := List.mem_of_find?_eq_some hft
  have htourid : tour.id = tid := by simpa using List.find?_some hft
  have hroutemem : route ∈ s.routes := List.mem_of_find?_eq_some hfr
  have hrouteid : route.id = rid := by simpa using List.find?_some hfr
  have tinj : ∀ x ∈ s.tours, ∀ y ∈ s.tours, x.id = y.id → x = y :=
    fun x hx y hy => List.inj_on_of_nodup_map hnt hx hy
  have rinj : ∀ x ∈ s.routes, ∀ y ∈ s.routes, x.id = y.id → x = y :=
    fun x hx y hy => List.inj_on_of_nodup_map hnr hx hy
  have hroutes : s'.routes = s.routes.map (publishF tour.published_route_id rid now) := by
    rw [hs']
    exact routes_after_publish s tour.published_route_id rid now
  have hQtours :
      (publishTarget (supersedeOld s tour.published_route_id) rid now).tours
        = s.tours := by
    cases tour.published_route_id <;> rfl
  have htours : s'.tours =
      s.tours.map (fun t => if t.id = tid then tourPublishUpd rid t else t) := by
    rw [hs']
    show ((publishTarget (supersedeOld s tour.published_route_id) rid now).tours).map _ = _
    rw [hQtours]
  have hnext : s'.next_id = s.next_id := by
    rw [hs']
    show (publishTarget (supersedeOld s tour.published_route_id) rid now).next_id = _
    cases tour.published_route_id <;> rfl
  refine ⟨?_, ?_, ?_, ?_, ?_, ?_⟩
  · rw [htours, List.map_map]
    have heq : s.tours.map (Tour.id ∘ fun t => if t.id = tid then tourPublishUpd rid t else t)
        = s.tours.map Tour.id := by
      apply List.map_congr_left
      intro t _
      by_cases hx : t.id = tid <;> simp [Function.comp, hx, tourPublishUpd]
    rw [heq]
    exact hnt
  · rw [hroutes, List.map_map]
    have heq : s.routes.map (Route.id ∘ publishF tour.published_route_id rid now)
        = s.routes.map Route.id := by
      apply List.map_congr_left
      intro r _
      simp [Function.comp, publishF_id]
    rw [heq]
    exact hnr
  · intro t ht
    rw [htours] at ht
    obtain ⟨x, hx, rfl⟩ := List.mem_map.mp ht
    rw [hnext]
    have hbx := hbt x hx
    by_cases hxx : x.id = tid
    · simpa [hxx, tourPublishUpd] using hbx
    · simpa [hxx] using hbx
  · intro r hr
    rw [hroutes] at hr
    obtain ⟨x, hx, rfl⟩ := List.mem_map.mp hr
    rw [hnext, publishF_id]
    exact hbr x hx
  · intro r' hr' hpub'
    rw [hroutes] at hr'
    obtain ⟨r, hr, rfl⟩ := List.mem_map.mp hr'
    by_cases hid : r.id = rid
    · have hFr := publishF_target tour.published_route_id rid now r hid
      refine ⟨(if tour.id = tid then tourPublishUpd rid tour else tour), ?_, ?_, ?_⟩
      · rw [htours]
        exact List.mem_map_of_mem _ htourmem
      · have hreq : r = route := rinj r hr route hroutemem (by rw [hid, hrouteid])
        rw [hFr, hreq]
        simp [htourid, tourPublishUpd, hb]
      · rw [hFr]
        simp [htourid, tourPublishUpd, hid]
    · cases hptr : tour.published_route_id with
      | some oldId =>
        by_cases ho : r.id = oldId
        · have hFr := publishF_old oldId rid now r hid ho
          rw [hptr] at hpub'
          rw [hFr] at hpub'
          exact absurd hpub' (by simp)
        · have hFr := publishF_other_some oldId rid now r hid ho
          rw [hptr] at hpub'
          rw [hFr] at hpub' ⊢
          obtain ⟨t, ht, hid', hptr'⟩ := h1 r hr hpub'
          have htne : t.id ≠ tid := by
            intro he
            have heq : t = tour := tinj t ht tour htourmem (by rw [he, htourid])
            rw [heq, hptr] at hptr'
            injection hptr' with h''
            exact ho h''.symm
          refine ⟨t, ?_, hid', hptr'⟩
          rw [htours]
          have : (if t.id = tid then tourPublishUpd rid t else t) = t := by
            simp [htne]
          rw [← this]
          exact List.mem_map_of_mem _ ht
      | none =>
        have hFr := publishF_other_none rid now r hid
        rw [hptr] at hpub'
        rw [hFr] at hpub' ⊢
        obtain ⟨t, ht, hid', hptr'⟩ := h1 r hr hpub'
        have htne : t.id ≠ tid := by
          intro he
          have heq : t = tour := tinj t ht tour htourmem (by rw [he, htourid])
          rw [heq, hptr] at hptr'
          cases hptr'
        refine ⟨t, ?_, hid', hptr'⟩
        rw [htours]
        have : (if t.id = tid then tourPublishUpd rid t else t) = t := by
          simp [htne]
        rw [← this]
        exact List.mem_map_of_mem _ ht
  · intro t'' ht'' rid2 hrid2
    rw [htours] at ht''
    obtain ⟨t, ht, rfl⟩ := List.mem_map.mp ht''
    by_cases hx : t.id = tid
    · rw [if_pos hx] at hrid2 ⊢
      have hr2 : rid2 = rid := by
        have hthis := hrid2
        rw [tourPublishUpd_ptr] at hthis
        injection hthis with h''
        exact h''.symm
      rw [hr2]
      refine ⟨publishF tour.published_route_id rid now route, ?_, ?_, ?_, ?_⟩
      · rw [hroutes]
        exact List.mem_map_of_mem _ hroutemem
      · rw [publishF_id]
        exact hrouteid
      · rw [publishF_target tour.published_route_id rid now route hrouteid]
        show route.tour_id = (tourPublishUpd rid t).id
        rw [hb]
        show tid = t.id
        exact hx.symm
      · rw [publishF_target tour.published_route_id rid now route hrouteid]
    · rw [if_neg hx] at hrid2 ⊢
      obtain ⟨r0, hr0, hr0id, hr0t, hr0p⟩ := h2 t ht rid2 hrid2


      have hne1 : r0.id ≠ rid := by
        intro he
        have heq : r0 = route := rinj r0 hr0 route hroutemem (by rw [he, hrouteid])
        rw [heq] at hr0t
        exact hx (by rw [← hr0t, hb])
      have hFr0 : publishF tour.published_route_id rid now r0 = r0 := by
        cases hptr : tour.published_route_id with
        | none => exact publishF_other_none rid now r0 hne1
        | some oldId =>
          by_cases ho : r0.id = oldId
          · obtain ⟨rOld, hrOld, hrOldid, hrOldt, _⟩ := h2 tour htourmem oldId hptr
            have heq : r0 = rOld := rinj r0 hr0 rOld hrOld (by rw [ho, hrOldid])
            rw [heq] at hr0t
            have : t.id = tid := by rw [← hr0t, hrOldt, htourid]
            exact (hx this).elim
          · exact publishF_other_some oldId rid now r0 hne1 ho
      refine ⟨publishF tour.published_route_id rid now r0, ?_, ?_, ?_, ?_⟩
      · rw [hroutes]
        exact List.mem_map_of_mem _ hr0
      · rw [hFr0]; exact hr0id
      · rw [hFr0]; exact hr0t
      · rw [hFr0]; exact hr0p

/-- Every reachable state satisfies the invariant. -/
theorem inv_reach {s : St} (h : Reach s) : Inv s := by
  induction h with
  | init => exact inv_empty
  | step_create_tour h ih => exact inv_create_tour _ _ _ _ _ ih
  | step_update_tour h hu ih => exact inv_update_tour ih hu
  | step_create_route h hc ih => exact inv_create_route ih hc
  | step_publish h hp ih => exact inv_publish ih hp

/-! ## Claims -/

/-- C7: for every user and version, `progressSummary` returns
`progress_percent = round(audio_completed / checkpoints_total * 100, 1)` when
`checkpoints_total` (the number of visible checkpoints) is positive, and
returns `progress_percent = 0` with no division error when
`checkpoints_total = 0`. -/
theorem C7_progress_percent_div_safe (s : St) (uid rid : Nat) :
    ((calculate_user_progress s uid rid).checkpoints_total = 0 →
      (calculate_user_progress s uid rid).progress_percent = 0) ∧
    (0 < (calculate_user_progress s uid rid).checkpoints_total →
      (calculate_user_progress s uid rid).progress_percent =
        pyRound1 (((calculate_user_progress s uid rid).audio_completed : ℚ) /
          ((calculate_user_progress s uid rid).checkpoints_total : ℚ) * 100)) := by
  constructor
  · intro h
    have h0 : totalCount s rid = 0 := h
    show pyRound1 (if totalCount s rid > 0 then _ else 0) = 0
    rw [if_neg (by omega)]
    exact pyRound1_zero
  · intro h
    have h0 : 0 < totalCount s rid := h
    show pyRound1 (if totalCount s rid > 0 then
      ((audioCount s uid rid : ℚ) / (totalCount s rid : ℚ) * 100) else 0) = _
    rw [if_pos h0]
    rfl

/-- C7 witness: both branches of the theorem, evaluated on the empty store
(zero checkpoints) and on the published two-checkpoint state `exS3`. -/
theorem C7_witness :
    (calculate_user_progress St.empty 1 1).progress_percent = 0 ∧
    (calculate_user_progress exS3 42 1).progress_percent =
      pyRound1 (((calculate_user_progress exS3 42 1).audio_completed : ℚ) /
        ((calculate_user_progress exS3 42 1).checkpoints_total : ℚ) * 100) :=
  ⟨(C7_progress_percent_div_safe St.empty 1 1).1 (by decide),
   (C7_progress_percent_div_safe exS3 42 1).2 (by decide)⟩

/-- C10: the progress aggregation counts `checkpoints_total` over visible
checkpoints only, while `audio_completed` counts progress rows over all
checkpoints of the version.  In `c10s5` the version has three checkpoints, one
visible; both invisible ones have completed audio, so the summary reports
`checkpoints_total = 1` but `audio_completed = 2`, `progress_percent = 200 >
100`, and the session was automatically completed (at the first invisible
completion, time 7) even though the visible checkpoint (id 2) has no audio
progress at all. -/
theorem C10_visibility_asymmetry :
    ((c10s5.checkpoints.filter (fun c => c.route_id == 1)).length = 3) ∧
    (calculate_user_progress c10s5 42 1).checkpoints_total = 1 ∧
    (calculate_user_progress c10s5 42 1).audio_completed = 2 ∧
    (calculate_user_progress c10s5 42 1).progress_percent = 200 ∧
    100 < (calculate_user_progress c10s5 42 1).progress_percent ∧
    (findCheckpoint c10s5 2).map Checkpoint.is_visible = Option.some true ∧
    findVP c10s5 42 2 = Option.none ∧
    (findSession c10s5 42 0).map (fun x => (x.completed_at, x.completion_type)) =
      Option.some (Option.some 7, Option.some CompletionType.automatic) := by
  have ht : totalCount c10s5 1 = 1 := by decide
  have ha : audioCount c10s5 42 1 = 2 := by decide
  have hp : (calculate_user_progress c10s5 42 1).progress_percent = 200 := by
    show pyRound1 (if totalCount c10s5 1 > 0 then
      ((audioCount c10s5 42 1 : ℚ) / (totalCount c10s5 1 : ℚ) * 100) else 0) = 200
    rw [ht, ha]
    norm_num [pyRound1, roundHalfEven]
  refine ⟨by decide, ht, ha, hp, ?_, by decide, by decide, by decide⟩
  rw [hp]
  norm_num

/-- In an invariant state, no two `published` versions share a tour: the
tour ids of the published rows are pairwise distinct. -/
theorem published_unique_of_inv {s : St} (h : Inv s) :
    ((s.routes.filter (fun x => decide (x.status = RouteStatus.published))).map
      Route.tour_id).Nodup := by
  obtain ⟨hnt, hnr, hbt, hbr, h1, h2⟩ := h
  refine List.Nodup.map_on ?_ ((List.Nodup.of_map Route.id hnr).filter _)
  intro x hx y hy hxy
  rw [List.mem_filter] at hx hy
  obtain ⟨tx, htx, htxid, htxptr⟩ := h1 x hx.1 (by simpa using hx.2)
  obtain ⟨ty, hty, htyid, htyptr⟩ := h1 y hy.1 (by simpa using hy.2)
  have hteq : tx = ty :=
    List.inj_on_of_nodup_map hnt htx hty (by rw [htxid, htyid, hxy])
  rw [hteq] at htxptr
  have hxyid : x.id = y.id := by
    have hq := htxptr.symm.trans htyptr
    injection hq
  exact List.inj_on_of_nodup_map hnr hx.1 hy.1 hxyid

/-- C1: after `publish(tourId, versionId)` on a reachable state, at most one
version of any tour has status `published` (the tour ids of published versions
are pairwise distinct), and a version `r` of that tour that was `published`
before the call and is not the publish target now has status `superseded`. -/
theorem C1_publish_unique_published (s s' : St) (tid rid now : Nat) (t' : Tour)
    (r : Route) (hs : Reach s)
    (hpub : publish_route s tid rid now = Option.some (s', t'))
    (hr : r ∈ s.routes) (hrpub : r.status = RouteStatus.published)
    (hrt : r.tour_id = tid) (hne : r.id ≠ rid) :
    ((s'.routes.filter (fun x => decide (x.status = RouteStatus.published))).map
        Route.tour_id).Nodup ∧
    (findRoute s' r.id).map Route.status = Option.some RouteStatus.superseded := by
  have hinv := inv_reach hs
  constructor
  · exact published_unique_of_inv (inv_publish hinv hpub)
  · obtain ⟨hnt, hnr, hbt, hbr, h1, h2⟩ := hinv
    obtain ⟨tour, route, hft, hfr, hb, hs'eq, ht'⟩ := publish_route_eq hpub
    have htourmem := List.mem_of_find?_eq_some hft
    have htourid : tour.id = tid := by simpa using List.find?_some hft
    obtain ⟨t0, ht0, ht0id, ht0ptr⟩ := h1 r hr hrpub
    have ht0tour : t0 = tour :=
      List.inj_on_of_nodup_map hnt ht0 htourmem (by rw [ht0id, hrt, htourid])
    rw [ht0tour] at ht0ptr
    have hroutes : s'.routes =
        s.routes.map (publishF tour.published_route_id rid now) := by
      rw [hs'eq]
      exact routes_after_publish s tour.published_route_id rid now
    have hfind : findRoute s' r.id =
        Option.some (publishF tour.published_route_id rid now r) := by
      unfold findRoute
      rw [hroutes, find?_map_pred_inv _ _ (fun x => by rw [publishF_id]) s.routes,
        find?_key_unique Route.id hnr hr rfl]
      rfl
    rw [hfind, ht0ptr, publishF_old r.id rid now r hne rfl]
    rfl

/-- C1 witness: in `exS4` version 1 (route id 1) of tour 0 is published and
version 2 (route id 4) is a draft; publishing version 2 yields `exS5`, where
published versions have pairwise distinct tours and route 1 is superseded. -/
theorem C1_witness :
    ((exS5.routes.filter (fun x => decide (x.status = RouteStatus.published))).map
        Route.tour_id).Nodup ∧
    (findRoute exS5 1).map Route.status = Option.some RouteStatus.superseded := by
  have h1 : Reach exS1 := Reach.step_create_tour Reach.init
  have h2 : Reach exS2 := Reach.step_create_route h1
    (show create_route exS1 0 7 [true, true] = Option.some (exS2, exR1) by decide)
  have h3 : Reach exS3 := Reach.step_publish h2
    (show publish_route exS2 0 1 5 = Option.some (exS3, exT3) by decide)
  have h4 : Reach exS4 := Reach.step_create_route h3
    (show create_route exS3 0 7 [true, true, true] = Option.some (exS4, exR2)
      by decide)
  exact C1_publish_unique_published exS4 exS5 0 4 9 exT5 pubR1 h4 (by decide)
    (by decide) (by decide) (by decide) (by decide)

/-- C2 (amended): on a reachable state, publishing version N2 of a tour whose
version N1 (a different row) was published at time t1 leaves N1 with status
`superseded` and `published_at` still t1; but the publish target's
`published_at` is always stamped with the current time, including when it was
already set by a prior publish of the same version (the code has no
first-publish-only guard). -/
theorem C2_published_at_stamps (s s' : St) (tid rid now t1 : Nat) (t' : Tour)
    (r1 : Route) (hs : Reach s) (hr : r1 ∈ s.routes)
    (hpub1 : r1.status = RouteStatus.published)
    (hat : r1.published_at = Option.some t1) (hrt : r1.tour_id = tid)
    (hpub : publish_route s tid rid now = Option.some (s', t')) :
    (rid ≠ r1.id →
      (findRoute s' r1.id).map (fun r => (r.status, r.published_at)) =
        Option.some (RouteStatus.superseded, Option.some t1)) ∧
    (findRoute s' rid).map Route.published_at =
      Option.some (Option.some now) := by
  obtain ⟨hnt, hnr, hbt, hbr, h1, h2⟩ := inv_reach hs
  obtain ⟨tour, route, hft, hfr, hb, hs'eq, ht'⟩ := publish_route_eq hpub
  have htourmem := List.mem_of_find?_eq_some hft
  have htourid : tour.id = tid := by simpa using List.find?_some hft
  have hroutemem := List.mem_of_find?_eq_some hfr
  have hrouteid : route.id = rid := by simpa using List.find?_some hfr
  have hroutes : s'.routes =
      s.routes.map (publishF tour.published_route_id rid now) := by
    rw [hs'eq]
    exact routes_after_publish s tour.published_route_id rid now
  constructor
  · intro hne
    obtain ⟨t0, ht0, ht0id, ht0ptr⟩ := h1 r1 hr hpub1
    have ht0tour : t0 = tour :=
      List.inj_on_of_nodup_map hnt ht0 htourmem (by rw [ht0id, hrt, htourid])
    rw [ht0tour] at ht0ptr
    have hfind : findRoute s' r1.id =
        Option.some (publishF tour.published_route_id rid now r1) := by
      unfold findRoute
      rw [hroutes, find?_map_pred_inv _ _ (fun x => by rw [publishF_id]) s.routes,
        find?_key_unique Route.id hnr hr rfl]
      rfl
    rw [hfind, ht0ptr, publishF_old r1.id rid now r1 (Ne.symm hne) rfl]
    simp [hat]
  · have hfind : findRoute s' rid =
        Option.some (publishF tour.published_route_id rid now route) := by
      unfold findRoute
      rw [hroutes, find?_map_pred_inv _ _ (fun x => by rw [publishF_id]) s.routes,
        find?_key_unique Route.id hnr hroutemem hrouteid]
      rfl
    rw [hfind, publishF_target tour.published_route_id rid now route hrouteid]
    rfl

/-- C2 witness: publishing version 2 at time 9 over version 1 (published at 5)
leaves version 1 superseded with `published_at` still 5, and stamps version 2
with `published_at = 9`. -/
theorem C2_witness :
    (4 ≠ 1 →
      (findRoute exS5 1).map (fun r => (r.status, r.published_at)) =
        Option.some (RouteStatus.superseded, Option.some 5)) ∧
    (findRoute exS5 4).map Route.published_at =
      Option.some (Option.some 9) := by
  have h1 : Reach exS1 := Reach.step_create_tour Reach.init
  have h2 : Reach exS2 := Reach.step_create_route h1
    (show create_route exS1 0 7 [true, true] = Option.some (exS2, exR1) by decide)
  have h3 : Reach exS3 := Reach.step_publish h2
    (show publish_route exS2 0 1 5 = Option.some (exS3, exT3) by decide)
  have h4 : Reach exS4 := Reach.step_create_route h3
    (show create_route exS3 0 7 [true, true, true] = Option.some (exS4, exR2)
      by decide)
  exact C2_published_at_stamps exS4 exS5 0 4 9 5 exT5 pubR1 h4 (by decide)
    (by decide) (by decide) (by decide) (by decide)

/-- C3 (amended): in every reachable state, a tour's published-version
reference, when non-null, points at an existing version of that tour whose own
status is `published`; but (see the counterexample) the reference can be
non-null while the tour's status is not `published`, because `update_tour`
changes the status without touching the reference. -/
theorem C3_pointer_integrity (s : St) (t : Tour) (rid : Nat) (hs : Reach s)
    (ht : t ∈ s.tours) (hptr : t.published_route_id = Option.some rid) :
    (findRoute s rid).map (fun r => (r.tour_id, r.status)) =
      Option.some (t.id, RouteStatus.published) := by
  obtain ⟨hnt, hnr, hbt, hbr, h1, h2⟩ := inv_reach hs
  obtain ⟨r, hrm, hrid, hrt, hrp⟩ := h2 t ht rid hptr
  have hfind : findRoute s rid = Option.some r :=
    find?_key_unique Route.id hnr hrm hrid
  rw [hfind]
  simp [hrt, hrp]

/-- C3 witness: in `exS3` tour 0 points at route 1, which is an existing
version of tour 0 with status `published`. -/
theorem C3_witness :
    (findRoute exS3 1).map (fun r => (r.tour_id, r.status)) =
      Option.some (0, RouteStatus.published) := by
  have h1 : Reach exS1 := Reach.step_create_tour Reach.init
  have h2 : Reach exS2 := Reach.step_create_route h1
    (show create_route exS1 0 7 [true, true] = Option.some (exS2, exR1) by decide)
  have h3 : Reach exS3 := Reach.step_publish h2
    (show publish_route exS2 0 1 5 = Option.some (exS3, exT3) by decide)
  exact C3_pointer_integrity exS3 exTour3 1 h3 (by decide) (by decide)

/-- C5 (amended): `finish` on a `(user, tour)` pair whose sessions are all
already completed fails with the same NotFound-style HTTP 404 used when no
session exists — there is no distinct AlreadyCompleted error — and the state
(hence `completed_at` and `completion_cause`) is left unchanged. -/
theorem C5_finish_completed_404 (s : St) (u tid now : Nat)
    (h : ∀ x ∈ s.sessions, x.user_id = u → x.tour_id = tid →
      x.completed_at ≠ Option.none) :
    finish_route_endpoint s u tid now =
      (s, FinishResult.httpError 404 "No active session for this route") := by
  have hfind : findActiveSession s u tid = Option.none := by
    unfold findActiveSession
    rw [List.find?_eq_none]
    intro x hx hpx
    simp only [Bool.and_eq_true, beq_iff_eq, Option.isNone_iff_eq_none] at hpx
    exact h x hx hpx.1.1 hpx.1.2 hpx.2
  simp [finish_route_endpoint, finish_tour, hfind]

/-- C5 witness: user 42's only session for tour 0 in `c5s1` is completed, and
finishing again yields the 404 and an unchanged state. -/
theorem C5_witness :
    finish_route_endpoint c5s1 42 0 8 =
      (c5s1, FinishResult.httpError 404 "No active session for this route") :=
  C5_finish_completed_404 c5s1 42 0 8 (by decide)

/-- C5 counterexample: finishing an already-completed session produces exactly
the same error value as finishing for user 99, who has no session at all for
tour 0 — the code has no AlreadyCompleted error distinct from NotFound. -/
theorem C5_counterexample :
    (finish_route_endpoint c5s1 42 0 8).2 = (finish_route_endpoint c5s1 99 0 8).2 ∧
    (finish_route_endpoint c5s1 42 0 8).2 =
      FinishResult.httpError 404 "No active session for this route" ∧
    findSession c5s1 99 0 = Option.none ∧
    (findSession c5s1 42 0).map UserActiveTour.completed_at =
      Option.some (Option.some 7) := by
  decide

/-- C4: starting a tour twice for the same user returns the same session row
(in particular the same id and the same `locked_version`), even when a
different version of the tour is published between the two calls; and when no
session existed before the first call, the locked version is the tour's
published version at that instant. -/
theorem C4_idempotent_start (s s1 s2 s3 : St) (u tid now1 rid now2 now3 : Nat)
    (x1 x2 : UserActiveTour) (t' : Tour)
    (h1 : start_tour s u tid now1 = Option.some (s1, x1))
    (hp : publish_route s1 tid rid now2 = Option.some (s2, t'))
    (h2 : start_tour s2 u tid now3 = Option.some (s3, x2)) :
    x2 = x1 ∧ x2.id = x1.id ∧ x2.locked_route_id = x1.locked_route_id ∧
    (findSession s u tid = Option.none →
      (findTour s tid).map Tour.published_route_id =
        Option.some (Option.some x1.locked_route_id)) := by
  have hses1 : findSession s1 u tid = Option.some x1 ∧
      (findSession s u tid = Option.none →
        (findTour s tid).map Tour.published_route_id =
          Option.some (Option.some x1.locked_route_id)) := by
    unfold start_tour at h1
    split at h1
    · cases h1
    next tour hft =>
      split at h1
      · cases h1
      next prid hprid =>
        split at h1
        next existing hfs =>
          rw [Option.some.injEq, Prod.mk.injEq] at h1
          obtain ⟨hs1, hx1⟩ := h1
          subst hs1
          subst hx1
          exact ⟨hfs, fun hnone => absurd (hfs.symm.trans hnone) (by simp)⟩
        next hfs =>
          rw [Option.some.injEq, Prod.mk.injEq] at h1
          obtain ⟨hs1, hx1⟩ := h1
          subst hs1
          subst hx1
          constructor
          · show (s.sessions ++ [_]).find? _ = _
            rw [find?_append_none _ hfs]
            simp [List.find?_cons]
          · intro _
            rw [hft]
            show Option.some tour.published_route_id = _
            rw [hprid]
  have hses2 : findSession s2 u tid = Option.some x1 := by
    rw [findSession_congr (publish_frame hp).2.2.1]
    exact hses1.1
  unfold start_tour at h2
  split at h2
  · cases h2
  next tour2 hft2 =>
    split at h2
    · cases h2
    next prid2 hprid2 =>
      split at h2
      next ex2 hfs2 =>
        rw [Option.some.injEq, Prod.mk.injEq] at h2
        obtain ⟨hs3, hx2⟩ := h2
        have hex : ex2 = x1 := by
          have hq := hfs2.symm.trans hses2
          exact Option.some.inj hq
        rw [← hx2, hex]
        exact ⟨rfl, rfl, rfl, hses1.2⟩
      next hfs2 =>
        rw [hses2] at hfs2
        cases hfs2

/-- C4 witness: user 42 starts tour 0 while version 1 is published, version 2
is published in between, and the second start returns the same session locked
to version 1, whose id was the tour's published version at first start. -/
theorem C4_witness :
    c4x2 = c4x ∧ c4x2.id = c4x.id ∧ c4x2.locked_route_id = c4x.locked_route_id ∧
    (findSession exS4 42 0 = Option.none →
      (findTour exS4 0).map Tour.published_route_id =
        Option.some (Option.some c4x.locked_route_id)) :=
  C4_idempotent_start exS4 c4s1 c4s2 c4s3 42 0 6 4 9 10 c4x c4x2 c4t
    (by decide) (by decide) (by decide)

theorem get_cp_active (s : St) (tid u : Nat) (tour : Tour) (prid : Nat)
    (sess : UserActiveTour) (hft : findTour s tid = Option.some tour)
    (hprid : tour.published_route_id = Option.some prid)
    (hsess : findActiveSession s u tid = Option.some sess) :
    get_tour_checkpoints s tid (Option.some u) =
      sortBySeq (s.checkpoints.filter
        (fun c => c.route_id == sess.locked_route_id)) := by
  unfold get_tour_checkpoints
  simp only [hft, hprid, hsess]

theorem get_cp_noactive (s : St) (tid u : Nat) (tour : Tour) (prid : Nat)
    (hft : findTour s tid = Option.some tour)
    (hprid : tour.published_route_id = Option.some prid)
    (hsess : findActiveSession s u tid = Option.none) :
    get_tour_checkpoints s tid (Option.some u) =
      sortBySeq (s.checkpoints.filter (fun c => c.route_id == prid)) := by
  unfold get_tour_checkpoints
  simp only [hft, hprid, hsess]

/-- C6: with an active session for user `u` locked to version V of tour `tid`,
publishing any version leaves the session row unchanged (`locked_version`
still V), `checkpointsFor(u, tid)` still returns exactly V's checkpoints in
`seq_no` order, and a user `u2` with no active session is returned the
checkpoints of the version that is now published. -/
theorem C6_locked_checkpoints (s s' : St) (u u2 tid rid now : Nat)
    (sess : UserActiveTour) (t' : Tour)
    (hsess : findActiveSession s u tid = Option.some sess)
    (hpub : publish_route s tid rid now = Option.some (s', t'))
    (hno : findActiveSession s' u2 tid = Option.none) :
    findActiveSession s' u tid = Option.some sess ∧
    get_tour_checkpoints s' tid (Option.some u) =
      sortBySeq (s.checkpoints.filter
        (fun c => c.route_id == sess.locked_route_id)) ∧
    get_tour_checkpoints s' tid (Option.some u2) =
      sortBySeq (s.checkpoints.filter (fun c => c.route_id == rid)) := by
  obtain ⟨hcpf, hvpf, hsesf, hnextf⟩ := publish_frame hpub
  have hses' : findActiveSession s' u tid = Option.some sess := by
    rw [findActiveSession_congr hsesf]
    exact hsess
  obtain ⟨tour, hft, hft', ht'⟩ := publish_findTour hpub
  refine ⟨hses', ?_, ?_⟩
  · rw [get_cp_active s' tid u (tourPublishUpd rid tour) rid sess hft'
      (tourPublishUpd_ptr rid tour) hses', hcpf]
  · rw [get_cp_noactive s' tid u2 (tourPublishUpd rid tour) rid hft'
      (tourPublishUpd_ptr rid tour) hno, hcpf]

/-- C6 witness: user 42's session is locked to version 1; publishing version 2
(route id 4) leaves the session untouched, user 42 still gets version 1's
checkpoints, and user 43 (no session) gets version 2's checkpoints. -/
theorem C6_witness :
    findActiveSession c4s2 42 0 = Option.some c4x ∧
    get_tour_checkpoints c4s2 0 (Option.some 42) =
      sortBySeq (c4s1.checkpoints.filter
        (fun c => c.route_id == c4x.locked_route_id)) ∧
    get_tour_checkpoints c4s2 0 (Option.some 43) =
      sortBySeq (c4s1.checkpoints.filter (fun c => c.route_id == 4)) :=
  C6_locked_checkpoints c4s1 c4s2 42 43 0 4 9 c4x c4t (by decide) (by decide)
    (by decide)

/-! ### Destructuring the progress writes -/

theorem update_audio_eq {s s' : St} {uid cid now : Nat} {ns : AudioListenStatus}
    {vp : VisitedPoint}
    (h : update_audio_status s uid cid ns now = Option.some (s', vp)) :
    ∃ cp, findCheckpoint s cid = Option.some cp ∧
      vp = (audio_write s uid cid ns now).2 ∧
      s' = completion_side_effect (audio_write s uid cid ns now).1 uid
        cp.route_id now := by
  unfold update_audio_status at h
  split at h
  · cases h
  next cp hcp =>
    rw [Option.some.injEq, Prod.mk.injEq] at h
    obtain ⟨hs', hvp⟩ := h
    exact ⟨cp, hcp, hvp.symm, hs'.symm⟩

theorem mark_visited_eq {s s' : St} {uid cid now : Nat} {vp : VisitedPoint}
    (h : mark_checkpoint_visited s uid cid now = Option.some (s', vp)) :
    ∃ cp, findCheckpoint s cid = Option.some cp ∧
      vp = (visited_write s uid cid now).2 ∧
      s' = completion_side_effect (visited_write s uid cid now).1 uid
        cp.route_id now := by
  unfold mark_checkpoint_visited at h
  split at h
  · cases h
  next cp hcp =>
    rw [Option.some.injEq, Prod.mk.injEq] at h
    obtain ⟨hs', hvp⟩ := h
    exact ⟨cp, hcp, hvp.symm, hs'.symm⟩

theorem audio_write_frame (s : St) (uid cid : Nat) (ns : AudioListenStatus)
    (now : Nat) :
    (audio_write s uid cid ns now).1.tours = s.tours ∧
    (audio_write s uid cid ns now).1.routes = s.routes ∧
    (audio_write s uid cid ns now).1.sessions = s.sessions ∧
    (audio_write s uid cid ns now).1.checkpoints = s.checkpoints := by
  unfold audio_write
  cases findVP s uid cid <;> exact ⟨rfl, rfl, rfl, rfl⟩

theorem visited_write_frame (s : St) (uid cid now : Nat) :
    (visited_write s uid cid now).1.tours = s.tours ∧
    (visited_write s uid cid now).1.routes = s.routes ∧
    (visited_write s uid cid now).1.sessions = s.sessions ∧
    (visited_write s uid cid now).1.checkpoints = s.checkpoints := by
  unfold visited_write
  cases hvp : findVP s uid cid with
  | none => exact ⟨rfl, rfl, rfl, rfl⟩
  | some vp => cases hv : vp.visited <;> simp [hv, updateVP]

theorem completion_frame (s1 : St) (uid rid now : Nat) :
    (completion_side_effect s1 uid rid now).visited_points =
      s1.visited_points ∧
    (completion_side_effect s1 uid rid now).checkpoints = s1.checkpoints := by
  unfold completion_side_effect
  cases hf : findTourOfRoute s1 rid with
  | none => exact ⟨rfl, rfl⟩
  | some tour =>
    dsimp only
    unfold check_automatic_completion
    cases hs : findActiveSession s1 uid tour.id with
    | none => exact ⟨rfl, rfl⟩
    | some sess =>
      dsimp only
      by_cases hcond :
          (calculate_user_progress s1 uid sess.locked_route_id).audio_completed ≥
            (calculate_user_progress s1 uid sess.locked_route_id).checkpoints_total ∧
          (calculate_user_progress s1 uid sess.locked_route_id).checkpoints_total > 0
      · rw [if_pos hcond]
        exact ⟨rfl, rfl⟩
      · rw [if_neg hcond]
        exact ⟨rfl, rfl⟩

theorem audio_write_some (s : St) (uid cid : Nat) (ns : AudioListenStatus)
    (now : Nat) (vp : VisitedPoint) (hvp : findVP s uid cid = Option.some vp) :
    (audio_write s uid cid ns now).2 = { vp with
      audio_status := ns
      audio_started_at :=
        if ns = AudioListenStatus.started ∧ vp.audio_started_at = Option.none
        then Option.some now else vp.audio_started_at
      audio_completed_at :=
        if ns = AudioListenStatus.completed ∧ vp.audio_completed_at = Option.none
        then Option.some now else vp.audio_completed_at } ∧
    (audio_write s uid cid ns now).1 =
      updateVP s uid cid (fun _ => (audio_write s uid cid ns now).2) := by
  unfold audio_write
  rw [hvp]
  exact ⟨rfl, rfl⟩

theorem audio_write_none (s : St) (uid cid : Nat) (ns : AudioListenStatus)
    (now : Nat) (hvp : findVP s uid cid = Option.none) :
    (audio_write s uid cid ns now).2 =
      { user_id := uid, checkpoint_id := cid, visited := false
        visited_at := Option.none
        audio_status := ns
        audio_started_at :=
          if ns = AudioListenStatus.started then Option.some now else Option.none
        audio_completed_at :=
          if ns = AudioListenStatus.completed then Option.some now
          else Option.none } ∧
    (audio_write s uid cid ns now).1 =
      { s with visited_points :=
          s.visited_points ++ [(audio_write s uid cid ns now).2] } := by
  unfold audio_write
  rw [hvp]
  exact ⟨rfl, rfl⟩

theorem findVP_updateVP_const (s : St) (uid cid : Nat) (w : VisitedPoint)
    (hwu : w.user_id = uid) (hwc : w.checkpoint_id = cid) :
    findVP (updateVP s uid cid (fun _ => w)) uid cid =
      (findVP s uid cid).map (fun _ => w) := by
  have hg : ∀ v : VisitedPoint,
      (((if v.user_id = uid ∧ v.checkpoint_id = cid then w else v).user_id == uid) &&
       ((if v.user_id = uid ∧ v.checkpoint_id = cid then w else v).checkpoint_id == cid))
        = ((v.user_id == uid) && (v.checkpoint_id == cid)) := by
    intro v
    by_cases hv : v.user_id = uid ∧ v.checkpoint_id = cid
    · rw [if_pos hv]
      simp [hwu, hwc, hv.1, hv.2]
    · rw [if_neg hv]
  show (s.visited_points.map _).find? _ = _
  rw [find?_map_pred_inv _ _ hg s.visited_points]
  show (findVP s uid cid).map _ = _
  cases hf : findVP s uid cid with
  | none => rfl
  | some v =>
    have hpv := List.find?_some hf
    simp only [Bool.and_eq_true, beq_iff_eq] at hpv
    show Option.some (if v.user_id = uid ∧ v.checkpoint_id = cid then w else v) = _
    rw [if_pos ⟨hpv.1, hpv.2⟩]
    rfl

theorem findVP_after_audio_write (s : St) (uid cid : Nat)
    (ns : AudioListenStatus) (now : Nat) :
    findVP (audio_write s uid cid ns now).1 uid cid =
      Option.some (audio_write s uid cid ns now).2 := by
  cases hvp : findVP s uid cid with
  | some vp =>
    have hpv : ((vp.user_id == uid) && (vp.checkpoint_id == cid)) = true := by
      have h0 := hvp
      unfold findVP at h0
      exact List.find?_some
        (p := fun (v : VisitedPoint) => v.user_id == uid && v.checkpoint_id == cid) h0
    simp only [Bool.and_eq_true, beq_iff_eq] at hpv
    obtain ⟨hsnd, hfst⟩ := audio_write_some s uid cid ns now vp hvp
    rw [hfst, findVP_updateVP_const s uid cid _
      (by rw [hsnd]; exact hpv.1) (by rw [hsnd]; exact hpv.2), hvp]
    rfl
  | none =>
    obtain ⟨hsnd, hfst⟩ := audio_write_none s uid cid ns now hvp
    rw [hfst]
    show (s.visited_points ++ _).find? _ = _
    rw [find?_append_none _ hvp]
    rw [hsnd]
    simp [List.find?_cons]

/-- C9: `setAudioStatus` always records the requested status value (moves in
either direction are accepted), the stored row equals the returned row, and
the two timestamps are sticky: once non-null they are returned unchanged, and
a null timestamp is set (to now) exactly when the write moves the row into the
corresponding state (`started` / `completed`). -/
theorem C9_audio_timestamps_sticky (s s' : St) (uid cid now : Nat)
    (ns : AudioListenStatus) (vpPre : Option VisitedPoint) (vp' : VisitedPoint)
    (hvp : findVP s uid cid = vpPre)
    (h : update_audio_status s uid cid ns now = Option.some (s', vp')) :
    vp'.audio_status = ns ∧
    findVP s' uid cid = Option.some vp' ∧
    (match vpPre with
     | Option.none =>
       vp'.audio_started_at =
         (if ns = AudioListenStatus.started then Option.some now
          else Option.none) ∧
       vp'.audio_completed_at =
         (if ns = AudioListenStatus.completed then Option.some now
          else Option.none)
     | Option.some vp =>
       (vp.audio_started_at ≠ Option.none →
         vp'.audio_started_at = vp.audio_started_at) ∧
       (vp.audio_completed_at ≠ Option.none →
         vp'.audio_completed_at = vp.audio_completed_at) ∧
       (vp.audio_started_at = Option.none →
         vp'.audio_started_at =
           (if ns = AudioListenStatus.started then Option.some now
            else Option.none)) ∧
       (vp.audio_completed_at = Option.none →
         vp'.audio_completed_at =
           (if ns = AudioListenStatus.completed then Option.some now
            else Option.none))) := by
  obtain ⟨cp, hcp, hvp', hs'⟩ := update_audio_eq h
  have hstore : findVP s' uid cid = Option.some vp' := by
    rw [hs', findVP_congr (completion_frame
      (audio_write s uid cid ns now).1 uid cp.route_id now).1, hvp']
    exact findVP_after_audio_write s uid cid ns now
  cases vpPre with
  | some vp =>
    obtain ⟨hsnd, _⟩ := audio_write_some s uid cid ns now vp hvp
    rw [hvp', hsnd]
    refine ⟨rfl, by rw [← hsnd, ← hvp']; exact hstore, ?_, ?_, ?_, ?_⟩
    · intro hne
      show (if ns = AudioListenStatus.started ∧ vp.audio_started_at = Option.none
        then Option.some now else vp.audio_started_at) = vp.audio_started_at
      rw [if_neg (fun hc => hne hc.2)]
    · intro hne
      show (if ns = AudioListenStatus.completed ∧ vp.audio_completed_at = Option.none
        then Option.some now else vp.audio_completed_at) = vp.audio_completed_at
      rw [if_neg (fun hc => hne hc.2)]
    · intro h0
      show (if ns = AudioListenStatus.started ∧ vp.audio_started_at = Option.none
        then Option.some now else vp.audio_started_at) = _
      by_cases hns : ns = AudioListenStatus.started
      · rw [if_pos ⟨hns, h0⟩, if_pos hns]
      · rw [if_neg (fun hc => hns hc.1), if_neg hns]
        exact h0
    · intro h0
      show (if ns = AudioListenStatus.completed ∧ vp.audio_completed_at = Option.none
        then Option.some now else vp.audio_completed_at) = _
      by_cases hns : ns = AudioListenStatus.completed
      · rw [if_pos ⟨hns, h0⟩, if_pos hns]
      · rw [if_neg (fun hc => hns hc.1), if_neg hns]
        exact h0
  | none =>
    obtain ⟨hsnd, _⟩ := audio_write_none s uid cid ns now hvp
    rw [hvp', hsnd]
    exact ⟨rfl, by rw [← hsnd, ← hvp']; exact hstore, rfl, rfl⟩

/-- C9 witness: user 42's row for checkpoint 2 has `audio_started_at = 6` and
no completion timestamp; re-writing status `completed` at time 8 keeps the
start timestamp, stamps the completion timestamp, and stores the row. -/
theorem C9_witness :
    c9vp2.audio_status = AudioListenStatus.completed ∧
    findVP c9s2 42 2 = Option.some c9vp2 ∧
    ((c9vp.audio_started_at ≠ Option.none →
        c9vp2.audio_started_at = c9vp.audio_started_at) ∧
     (c9vp.audio_completed_at ≠ Option.none →
        c9vp2.audio_completed_at = c9vp.audio_completed_at) ∧
     (c9vp.audio_started_at = Option.none →
        c9vp2.audio_started_at =
          (if AudioListenStatus.completed = AudioListenStatus.started
           then Option.some 8 else Option.none)) ∧
     (c9vp.audio_completed_at = Option.none →
        c9vp2.audio_completed_at =
          (if AudioListenStatus.completed = AudioListenStatus.completed
           then Option.some 8 else Option.none))) :=
  C9_audio_timestamps_sticky c9s c9s2 42 2 8 AudioListenStatus.completed
    (Option.some c9vp) c9vp2 (by decide) (by decide)

/-- The full effect of the automatic-completion trigger on the session table,
relative to a pre-write state `s` whose tours/routes/sessions the written
state `s1` shares. -/
theorem completion_spec (s s1 : St) (uid rid now : Nat) (tour : Tour)
    (hT : s1.tours = s.tours) (hR : s1.routes = s.routes)
    (hS : s1.sessions = s.sessions)
    (htour : findTourOfRoute s rid = Option.some tour)
    (sessPre : Option UserActiveTour)
    (hsess : findActiveSession s uid tour.id = sessPre) :
    (completion_side_effect s1 uid rid now).sessions =
      sessPre.elim s.sessions (fun sess =>
        if (calculate_user_progress s1 uid sess.locked_route_id).audio_completed ≥
             (calculate_user_progress s1 uid sess.locked_route_id).checkpoints_total ∧
           (calculate_user_progress s1 uid sess.locked_route_id).checkpoints_total > 0
        then s.sessions.map (fun x => if x.id = sess.id then
               { x with completed_at := Option.some now
                        completion_type := Option.some CompletionType.automatic }
             else x)
        else s.sessions) := by
  unfold completion_side_effect
  rw [findTourOfRoute_congr hR hT, htour]
  dsimp only
  unfold check_automatic_completion
  rw [findActiveSession_congr hS]
  subst hsess
  cases hq : findActiveSession s uid tour.id with
  | none => exact hS
  | some sess =>
    dsimp only [Option.elim]
    by_cases hcond :
        (calculate_user_progress s1 uid sess.locked_route_id).audio_completed ≥
          (calculate_user_progress s1 uid sess.locked_route_id).checkpoints_total ∧
        (calculate_user_progress s1 uid sess.locked_route_id).checkpoints_total > 0
    · rw [if_pos hcond, if_pos hcond]
      show (updateSession s1 sess.id _).sessions = _
      unfold updateSession
      rw [hS]
    · rw [if_neg hcond, if_neg hcond]
      exact hS

/-- C8: after a `markVisited` or `setAudioStatus` write for user `uid` on
checkpoint `cid` of tour `tour`, the session table is unchanged when the user
has no active session for that tour (in particular when the session is already
completed, e.g. by a manual finish), and when an active session exists it is
completed with `completed_at = now` and `completion_cause = automatic` exactly
when the post-write progress summary of its locked version satisfies
`checkpoints_total > 0` and `audio_completed >= checkpoints_total`. -/
theorem C8_automatic_completion (s s' : St) (uid cid now : Nat)
    (ns : AudioListenStatus) (vp : VisitedPoint) (cp : Checkpoint) (tour : Tour)
    (sessPre : Option UserActiveTour)
    (hcp : findCheckpoint s cid = Option.some cp)
    (htour : findTourOfRoute s cp.route_id = Option.some tour)
    (hsess : findActiveSession s uid tour.id = sessPre)
    (h : update_audio_status s uid cid ns now = Option.some (s', vp) ∨
         mark_checkpoint_visited s uid cid now = Option.some (s', vp)) :
    s'.sessions =
      sessPre.elim s.sessions (fun sess =>
        if (calculate_user_progress s' uid sess.locked_route_id).audio_completed ≥
             (calculate_user_progress s' uid sess.locked_route_id).checkpoints_total ∧
           (calculate_user_progress s' uid sess.locked_route_id).checkpoints_total > 0
        then s.sessions.map (fun x => if x.id = sess.id then
               { x with completed_at := Option.some now
                        completion_type := Option.some CompletionType.automatic }
             else x)
        else s.sessions) := by
  rcases h with h | h
  · obtain ⟨cp0, hcp0, hvp', hs'⟩ := update_audio_eq h
    have hcpeq : cp0 = cp := Option.some.inj (hcp0.symm.trans hcp)
    subst hcpeq
    obtain ⟨hT, hR, hS, hC⟩ := audio_write_frame s uid cid ns now
    subst hs'
    rw [completion_spec s (audio_write s uid cid ns now).1 uid cp0.route_id now
      tour hT hR hS htour sessPre hsess]
    cases sessPre with
    | none => rfl
    | some sess =>
      dsimp only [Option.elim]
      have hcalc : calculate_user_progress
          (completion_side_effect (audio_write s uid cid ns now).1 uid
            cp0.route_id now) uid sess.locked_route_id =
          calculate_user_progress (audio_write s uid cid ns now).1 uid
            sess.locked_route_id :=
        calculate_congr (completion_frame _ uid cp0.route_id now).2
          (completion_frame _ uid cp0.route_id now).1 uid sess.locked_route_id
      rw [hcalc]
  · obtain ⟨cp0, hcp0, hvp', hs'⟩ := mark_visited_eq h
    have hcpeq : cp0 = cp := Option.some.inj (hcp0.symm.trans hcp)
    subst hcpeq
    obtain ⟨hT, hR, hS, hC⟩ := visited_write_frame s uid cid now
    subst hs'
    rw [completion_spec s (visited_write s uid cid now).1 uid cp0.route_id now
      tour hT hR hS htour sessPre hsess]
    cases sessPre with
    | none => rfl
    | some sess =>
      dsimp only [Option.elim]
      have hcalc : calculate_user_progress
          (completion_side_effect (visited_write s uid cid now).1 uid
            cp0.route_id now) uid sess.locked_route_id =
          calculate_user_progress (visited_write s uid cid now).1 uid
            sess.locked_route_id :=
        calculate_congr (completion_frame _ uid cp0.route_id now).2
          (completion_frame _ uid cp0.route_id now).1 uid sess.locked_route_id
      rw [hcalc]

/-- C8 witness: user 42's active session on tour 0 is locked to the
single-visible-checkpoint version 1; completing the audio of checkpoint 2 at
time 7 satisfies the threshold and completes the session automatically. -/
theorem C8_witness :
    c8s4.sessions =
      (if (calculate_user_progress c8s4 42 c8sess.locked_route_id).audio_completed ≥
            (calculate_user_progress c8s4 42 c8sess.locked_route_id).checkpoints_total ∧
          (calculate_user_progress c8s4 42 c8sess.locked_route_id).checkpoints_total > 0
       then c8s3.sessions.map (fun x => if x.id = c8sess.id then
              { x with completed_at := Option.some 7
                       completion_type := Option.some CompletionType.automatic }
            else x)
       else c8s3.sessions) :=
  C8_automatic_completion c8s3 c8s4 42 2 7 AudioListenStatus.completed c8vp c8cp
    c8tour (Option.some c8sess) (by decide) (by decide) (by decide)
    (Or.inl (by decide))

/-- C2 counterexample: version 1 of tour 0 was published at time 5
(`published_at = 5` in `exS3`); re-publishing the same version at time 9
re-stamps `published_at` to 9, contradicting the claim that a publish of a
version whose `published_at` is already set does not re-stamp it. -/
theorem C2_counterexample :
    (findRoute exS3 1).map Route.published_at = Option.some (Option.some 5) ∧
    (findRoute c2s 1).map Route.published_at = Option.some (Option.some 9) := by
  decide

/-- C3 counterexample: after publishing version 1 of tour 0, `update_tour` can
set the tour's status back to `draft` without clearing `published_route_id`,
so a reachable state has a non-null published-version reference on a tour
whose status is not `published`. -/
theorem C3_counterexample :
    (findTour c3s 0).map (fun t => (t.status, t.published_route_id)) =
      Option.some (TourStatus.draft, Option.some 1) := by
  decide

end LocusGuide
